import Mathlib

/-!
Shallow embedding of `src/epaper-display.py`, an OpenCanary status display
for a small e-paper panel.  The pure functions `parse_config` and
`check_honeypot_status` are translated directly, with their effectful
environment made explicit: the filesystem/JSON outcome becomes a
`ReadResult`, the subprocess outcome a `ProbeOutcome`, font measurement an
abstract measure `Font → String → Nat`, and the text draw calls issued by
`display_on_epaper` are returned as data.  The polling loop of `main`
becomes a step function on its mutable state plus a run function over a
finite list of tick events.
-/

namespace Epaper

/-- Scalar JSON values as produced by the Python json module; numbers are
modelled as integers (the config keys of interest hold booleans and integer
ports; floating point is out of scope). -/
inductive JsonVal where
  | null
  | bool (b : Bool)
  | num (n : Int)
  | str (s : String)
deriving DecidableEq

/-- Python `str(v)` for a scalar JSON value, as f-string interpolation
applies it on lines 26 and 28 of the source. -/
def pyStr : JsonVal → String
  | .null => "None"
  | .bool true => "True"
  | .bool false => "False"
  | .num n => toString n
  | .str s => s

/-- The characters Python `str.strip()` removes by default (ASCII part). -/
def isPyWhitespace (c : Char) : Bool :=
  c == ' ' || c == '\t' || c == '\n' || c == '\r' || c == '\x0b' || c == '\x0c'

/-- Python `s.strip()`. -/
def pyStrip (s : String) : String :=
  String.mk (((s.data.dropWhile isPyWhitespace).reverse.dropWhile isPyWhitespace).reverse)

/-- Python `s.upper()` (ASCII model). -/
def pyUpper (s : String) : String := String.mk (s.data.map Char.toUpper)

/-- Python `s.lower()` (ASCII model). -/
def pyLower (s : String) : String := String.mk (s.data.map Char.toLower)

/-- Python `s.endswith(t)`. -/
def pyEndsWith (s t : String) : Bool := List.isSuffixOf t.data s.data

/-- The characters before the first dot of a character list. -/
def charsBeforeDot : List Char → List Char
  | [] => []
  | c :: cs => if c == '.' then [] else c :: charsBeforeDot cs

/-- Python `key.split(".")[0]`: the portion of the key before the first
dot, or the whole string when no dot occurs. -/
def beforeFirstDot (s : String) : String := String.mk (charsBeforeDot s.data)

/-- The outcome of opening and JSON-parsing the config file, making the
filesystem and json-module behaviour visible to `parse_config`: the path
may not exist, `json.load` may fail with a decode error or some other
exception, or it yields the parsed object as its ordered key/value items. -/
inductive ReadResult where
  | notFound
  | invalidJson (msg : String)
  | otherError (msg : String)
  | parsed (config : List (String × JsonVal))

/-- The test on line 24 of the source:
`isinstance(value, bool) and key.endswith(".enabled") and value`. -/
def enabledTrue (key : String) (value : JsonVal) : Bool :=
  (match value with | .bool _ => true | _ => false)
    && pyEndsWith key ".enabled"
    && (match value with | .bool b => b | _ => false)

/-- Lines 25 to 28 of the source: the display line built for one matching
key, looking the companion port key up in the whole parsed object. -/
def serviceLine (config : List (String × JsonVal)) (key : String) : String :=
  let service_name := pyUpper (beforeFirstDot key)
  let port_key := pyLower service_name ++ ".port"
  let port := match List.lookup port_key config with
    | some v => pyStr v
    | none => "N/A"
  service_name ++ " on Port " ++ port

/-- The `for key, value in config.items()` loop of lines 23 to 28,
accumulating `active_services` in iteration order. -/
def collectActive (config : List (String × JsonVal)) :
    List (String × JsonVal) → List String
  | [] => []
  | (key, value) :: rest =>
    if enabledTrue key value then serviceLine config key :: collectActive config rest
    else collectActive config rest

/-- `parse_config` (lines 13 to 34 of the source). -/
def parse_config : ReadResult → List String
  | .notFound => ["Error: Config file not found"]
  | .parsed config =>
    let active_services := collectActive config config
    if active_services = [] then ["No active services found"] else active_services
  | .invalidJson msg => ["Error: Invalid JSON (" ++ msg ++ ")"]
  | .otherError msg => ["Error: " ++ msg]

/-- The outcome of the `subprocess.run` call on lines 39 to 44: either a
completed process with its exit code and captured standard output, or an
exception carrying its message. -/
inductive ProbeOutcome where
  | ok (returncode : Int) (stdout : String)
  | exn (msg : String)

/-- `check_honeypot_status` (lines 36 to 52 of the source). -/
def check_honeypot_status : ProbeOutcome → String
  | .ok returncode stdout =>
    if returncode = 0 then "Active"
    else if pyStrip stdout = "inactive" then "Inactive"
    else "Unknown status (" ++ pyStrip stdout ++ ")"
  | .exn msg => "Error checking status (" ++ msg ++ ")"

/-- The four font objects loaded on lines 62 to 65, identified by role
(the status and services fonts load the same underlying typeface). -/
inductive Font where
  | title
  | status
  | heading
  | services
deriving DecidableEq

/-- One `draw.text` call: position, text and font. -/
structure DrawCall where
  x : Int
  y : Int
  text : String
  font : Font
deriving DecidableEq

def line_spacing : Nat := 5

def extra_spacing_after_status : Nat := 10

/-- Lines 67 to 74 of `display_on_epaper`, with the bottom coordinate of
`draw.textbbox` abstracted as a measure `h f t`.  The source measures the
status line with a `Status: ` prefix, sizes every supplied service entry by
the measured height of the single-character text `A`, and counts all of
`services`, not only the at most eight entries later drawn. -/
def total_text_height (h : Font → String → Nat) (status : String)
    (services : List String) : Nat :=
  let title_height := h .title "Not a Honeypot"
  let status_height := h .status ("Status: " ++ status)
  let heading_height := h .heading "Listening for:"
  let services_height := services.length * (h .services "A" + line_spacing)
  title_height + status_height + heading_height + services_height
    + line_spacing * 3 + extra_spacing_after_status

/-- Line 77: `start_y = max(0, (epd.width - total_text_height) // 2)`,
with Python floor division on integers. -/
def start_y (width total : Nat) : Int :=
  max 0 (Int.fdiv ((width : Int) - (total : Int)) 2)

/-- The `for line in services[:8]` loop of lines 90 to 92, applied to the
already-truncated list: one draw call per line, advancing y by the measured
height of that line plus the line spacing. -/
def drawServices (h : Font → String → Nat) : List String → Int → List DrawCall
  | [], _ => []
  | line :: rest, y =>
    ⟨10, y, line, .services⟩ ::
      drawServices h rest (y + (h .services line : Int) + (line_spacing : Int))

/-- Lines 79 to 92 of `display_on_epaper`: the ordered sequence of text
draw calls issued onto the canvas.  Note line 84 draws the status string
verbatim while the y advance uses the height measured with the prefix. -/
def display_on_epaper (h : Font → String → Nat) (width : Nat) (status : String)
    (services : List String) : List DrawCall :=
  let y0 := start_y width (total_text_height h status services)
  let y1 := y0 + (h .title "Not a Honeypot" : Int) + (line_spacing : Int)
  let y2 := y1 + (h .status ("Status: " ++ status) : Int) + (line_spacing : Int)
    + (extra_spacing_after_status : Int)
  let y3 := y2 + (h .heading "Listening for:" : Int) + (line_spacing : Int)
  ⟨10, y0, "Not a Honeypot", .title⟩ ::
  ⟨10, y1, status, .status⟩ ::
  ⟨10, y2, "Listening for:", .heading⟩ ::
  drawServices h (services.take 8) y3

/-- Modelled from the words of Claim C3, for comparison with
`total_text_height`: the sum over the actually drawn lines (title, verbatim
status, heading, and the at most eight service lines) of their own
font-measured heights, plus the fixed 5px spacing per drawn line, plus the
one extra 10px gap after the status line. -/
def claimed_total_text_height (h : Font → String → Nat) (status : String)
    (services : List String) : Nat :=
  let lines : List (Font × String) :=
    (Font.title, "Not a Honeypot") :: (Font.status, status)
      :: (Font.heading, "Listening for:")
      :: (services.take 8).map (fun s => (Font.services, s))
  (lines.map (fun p => h p.1 p.2)).sum + line_spacing * lines.length
    + extra_spacing_after_status

/-- A concrete executable font measure used at counterexamples: the
measured height of a text is its length in characters. -/
def measureByLength : Font → String → Nat := fun _ s => s.data.length

/-- The loop state of `main`: `last_status` and `last_services`, both
initialised to Python None, modelled as `none` (lines 100 to 101). -/
structure LoopState where
  last_status : Option String
  last_services : Option (List String)
deriving DecidableEq

/-- What one iteration of the `while True` body does, given the freshly
computed status and services and whether the render call would succeed:
whether the renderer was invoked, whether the tick raised, and the loop
state after the tick. -/
structure TickResult where
  renderInvoked : Bool
  raised : Bool
  state : LoopState
deriving DecidableEq

/-- Lines 112 to 118: render only when `honeypot_status != last_status or
services != last_services` (Python None compares unequal to every string
and every list); on success both `last_` fields are updated, and on a
render exception they are left untouched while the exception propagates. -/
def loopTick (st : LoopState) (honeypot_status : String) (services : List String)
    (renderOk : Bool) : TickResult :=
  if some honeypot_status ≠ st.last_status ∨ some services ≠ st.last_services then
    if renderOk then ⟨true, false, ⟨some honeypot_status, some services⟩⟩
    else ⟨true, true, st⟩
  else ⟨false, false, st⟩

/-- What the outside world does on one iteration: a normal tick computing
a status and services whose render either succeeds or raises, a keyboard
interruption, or any other exception reaching the `try` of line 103. -/
inductive TickEvent where
  | result (honeypot_status : String) (services : List String) (renderOk : Bool)
  | keyboardInterrupt
  | fatal (msg : String)

/-- How `main` ends: still in the loop with its current state when the
event list runs out, or exited after calling the module-level
`epdconfig.module_exit()` cleanup the recorded number of times. -/
inductive MainOutcome where
  | running (st : LoopState)
  | exited (cleanupCalls : Nat)
deriving DecidableEq

/-- `main` (lines 97 to 127) run over a finite list of tick events: each
of the two `except` branches calls `module_exit()` once and then falls off
the end of `main`; a tick whose render raises reaches the generic
`except Exception` branch (lines 125 to 127). -/
def main : List TickEvent → LoopState → MainOutcome
  | [], st => .running st
  | .keyboardInterrupt :: _, _ => .exited 1
  | .fatal _ :: _, _ => .exited 1
  | .result s v ok :: rest, st =>
    let r := loopTick st s v ok
    if r.raised then .exited 1 else main rest r.state

theorem collectActive_eq (config l : List (String × JsonVal)) :
    collectActive config l
      = (l.filter fun kv => enabledTrue kv.1 kv.2).map
          (fun kv => serviceLine config kv.1) := by
  induction l with
  | nil => rfl
  | cons kv rest ih =>
    obtain ⟨k, v⟩ := kv
    by_cases h : enabledTrue k v = true
    · simp [collectActive, List.filter_cons, h, ih]
    · simp [collectActive, List.filter_cons, h, ih]

theorem drawServices_map_text (h : Font → String → Nat) :
    ∀ (ls : List String) (y : Int), (drawServices h ls y).map DrawCall.text = ls := by
  intro ls
  induction ls with
  | nil => intro y; rfl
  | cons a as ih => intro y; simp [drawServices, ih]

theorem drawServices_length (h : Font → String → Nat) :
    ∀ (ls : List String) (y : Int), (drawServices h ls y).length = ls.length := by
  intro ls
  induction ls with
  | nil => intro y; rfl
  | cons a as ih => intro y; simp [drawServices, ih]

/-- Claim C1: per tick the renderer is invoked iff the freshly computed
(status, services) pair differs by value from the last-rendered snapshot;
after a render the snapshot becomes the new pair; the very first tick
(no prior snapshot) always renders; and a second consecutive tick with the
identical pair never renders again. -/
theorem loop_render_change_detection (st : LoopState) (s : String) (v : List String) :
    ((loopTick st s v true).renderInvoked = true
        ↔ (some s, some v) ≠ (st.last_status, st.last_services))
    ∧ ((loopTick st s v true).renderInvoked = true
        → (loopTick st s v true).state = ⟨some s, some v⟩)
    ∧ (loopTick ⟨none, none⟩ s v true).renderInvoked = true
    ∧ (loopTick (loopTick st s v true).state s v true).renderInvoked = false := by
  by_cases hc : some s ≠ st.last_status ∨ some v ≠ st.last_services
  · refine ⟨?_, ?_, ?_, ?_⟩
    · simp only [loopTick, if_pos hc]
      simp only [Ne, Prod.mk.injEq, not_and_or]
      tauto
    · intro _; simp [loopTick, hc]
    · simp [loopTick]
    · simp [loopTick, hc]
  · push_neg at hc
    refine ⟨?_, ?_, ?_, ?_⟩
    · simp only [loopTick, hc.1, hc.2]
      simp [Prod.ext_iff, hc.1, hc.2]
    · intro habs
      simp [loopTick, hc.1, hc.2] at habs
    · simp [loopTick]
    · simp [loopTick, hc.1, hc.2]

/-- Claim C1 witness at a concrete first tick. -/
theorem loop_render_change_detection_witness :
    (loopTick ⟨none, none⟩ "Active" ["FTP on Port 21"] true).state
      = ⟨some "Active", some ["FTP on Port 21"]⟩ :=
  (loop_render_change_detection ⟨none, none⟩ "Active" ["FTP on Port 21"]).2.1 (by decide)

/-- Claim C2: for a successfully parsed config, exactly one line per key
ending in ".enabled" whose value is the boolean true — the upper-cased
portion of the key before the first dot, then " on Port ", then the value
of the companion "<lowercase name>.port" key or "N/A" when absent — in the
iteration order of the keys, and no other key produces a line; in
particular the documented example config yields ["FTP on Port 21"]. -/
theorem parse_config_enabled_lines (config : List (String × JsonVal)) :
    collectActive config config
      = (config.filter fun kv => enabledTrue kv.1 kv.2).map (fun kv =>
          pyUpper (beforeFirstDot kv.1) ++ " on Port " ++
            (match List.lookup (pyLower (pyUpper (beforeFirstDot kv.1)) ++ ".port") config with
             | some v => pyStr v
             | none => "N/A"))
    ∧ ((config.filter fun kv => enabledTrue kv.1 kv.2) ≠ [] →
        parse_config (.parsed config)
          = (config.filter fun kv => enabledTrue kv.1 kv.2).map
              (fun kv => serviceLine config kv.1))
    ∧ parse_config (.parsed
        [("ftp.enabled", .bool true), ("ftp.port", .num 21), ("http.enabled", .bool false)])
      = ["FTP on Port 21"] := by
  refine ⟨?_, ?_, ?_⟩
  · rw [collectActive_eq]
    rfl
  · intro hne
    have hmap : collectActive config config
        = (config.filter fun kv => enabledTrue kv.1 kv.2).map
            (fun kv => serviceLine config kv.1) := collectActive_eq config config
    simp only [parse_config, hmap]
    rw [if_neg]
    simp [hne]
  · decide

/-- Claim C2 witness: a config with one enabled service and no port key. -/
theorem parse_config_enabled_lines_witness :
    parse_config (.parsed [("ssh.enabled", JsonVal.bool true)])
      = (([("ssh.enabled", JsonVal.bool true)] : List (String × JsonVal)).filter
            fun kv => enabledTrue kv.1 kv.2).map
          (fun kv => serviceLine [("ssh.enabled", JsonVal.bool true)] kv.1) :=
  (parse_config_enabled_lines [("ssh.enabled", JsonVal.bool true)]).2.1 (by decide)

/-- Claim C3 counterexample: with the measure that assigns a text its
character count, status "Active" and no services, the height the code uses
for vertical placement differs from the sum over drawn lines of their own
measured heights plus spacing — the code measures the status line with a
"Status: " prefix it does not draw. -/
theorem display_height_counterexample :
    total_text_height measureByLength "Active" []
      ≠ claimed_total_text_height measureByLength "Active" [] := by decide

/-- Claim C3 amended: the placement height is the title height, plus the
measured height of the prefixed string "Status: <status>" (though the
status line itself is drawn verbatim, without the prefix), plus the heading
height, plus the number of all supplied services (also beyond the eight
drawn) times the measured height of "A" plus 5, plus the fixed spacings;
drawing starts at y = max(0, (width - total) // 2); and the second draw
call is the verbatim status string. -/
theorem display_layout_amended (h : Font → String → Nat) (width : Nat)
    (status : String) (services : List String) :
    total_text_height h status services
      = h Font.title "Not a Honeypot" + h Font.status ("Status: " ++ status)
        + h Font.heading "Listening for:"
        + services.length * (h Font.services "A" + line_spacing)
        + line_spacing * 3 + extra_spacing_after_status
    ∧ (display_on_epaper h width status services).head?
        = some ⟨10, max 0 (Int.fdiv ((width : Int)
                    - (total_text_height h status services : Int)) 2),
                "Not a Honeypot", Font.title⟩
    ∧ (display_on_epaper h width status services)[1]?
        = some ⟨10, start_y width (total_text_height h status services)
                    + (h Font.title "Not a Honeypot" : Int) + (line_spacing : Int),
                status, Font.status⟩ :=
  ⟨rfl, rfl, rfl⟩

/-- Claim C4: the status probe is total — exit code 0 maps to "Active",
a nonzero exit code with stripped output "inactive" to "Inactive", any
other nonzero outcome to "Unknown status (<stripped output>)", and an
exception while invoking the query to "Error checking status (<message>)". -/
theorem check_status_total_mapping (rc : Int) (stdout msg : String) :
    (rc = 0 → check_honeypot_status (.ok rc stdout) = "Active")
    ∧ (rc ≠ 0 → pyStrip stdout = "inactive" →
        check_honeypot_status (.ok rc stdout) = "Inactive")
    ∧ (rc ≠ 0 → pyStrip stdout ≠ "inactive" →
        check_honeypot_status (.ok rc stdout)
          = "Unknown status (" ++ pyStrip stdout ++ ")")
    ∧ check_honeypot_status (.exn msg) = "Error checking status (" ++ msg ++ ")" := by
  refine ⟨fun h1 => ?_, fun h1 h2 => ?_, fun h1 h2 => ?_, rfl⟩
  · simp [check_honeypot_status, h1]
  · simp [check_honeypot_status, h1, h2]
  · simp [check_honeypot_status, h1, h2]

/-- Claim C4 witness at concrete probe outcomes. -/
theorem check_status_total_mapping_witness :
    check_honeypot_status (.ok 3 " failed\n")
      = "Unknown status (" ++ pyStrip " failed\n" ++ ")"
    ∧ check_honeypot_status (.ok 3 " inactive\n") = "Inactive" :=
  ⟨(check_status_total_mapping 3 " failed\n" "").2.2.1 (by decide) (by decide),
   (check_status_total_mapping 3 " inactive\n" "").2.1 (by decide) (by decide)⟩

/-- Claim C5: parse_config never raises and fails closed — a missing file,
invalid JSON and any other exception each yield the corresponding
single-element error sequence, the invalid-JSON one beginning with the
text "Error: Invalid JSON (". -/
theorem parse_config_error_handling (msg : String) :
    parse_config .notFound = ["Error: Config file not found"]
    ∧ parse_config (.invalidJson msg) = ["Error: Invalid JSON (" ++ msg ++ ")"]
    ∧ (parse_config (.invalidJson msg)).length = 1
    ∧ (∃ rest, parse_config (.invalidJson msg) = ["Error: Invalid JSON (" ++ rest])
    ∧ parse_config (.otherError msg) = ["Error: " ++ msg] := by
  refine ⟨rfl, rfl, rfl, ⟨msg ++ ")", ?_⟩, rfl⟩
  simp [parse_config, String.append_assoc]

/-- Claim C6: parse_config always returns at least one line; a parsed
config with N matching keys yields exactly N lines when N is at least 1,
and the sentinel line when N is 0. -/
theorem parse_config_line_count :
    (∀ r : ReadResult, parse_config r ≠ [])
    ∧ ∀ config : List (String × JsonVal),
        ((config.filter fun kv => enabledTrue kv.1 kv.2).length = 0 →
          parse_config (.parsed config) = ["No active services found"])
        ∧ (1 ≤ (config.filter fun kv => enabledTrue kv.1 kv.2).length →
            (parse_config (.parsed config)).length
              = (config.filter fun kv => enabledTrue kv.1 kv.2).length) := by
  constructor
  · intro r
    cases r with
    | notFound => simp [parse_config]
    | invalidJson m => simp [parse_config]
    | otherError m => simp [parse_config]
    | parsed config =>
      by_cases hc : collectActive config config = []
      · simp [parse_config, hc]
      · simp [parse_config, hc]
  · intro config
    constructor
    · intro h0
      have hfil : (config.filter fun kv => enabledTrue kv.1 kv.2) = [] :=
        List.eq_nil_of_length_eq_zero h0
      simp [parse_config, collectActive_eq, hfil]
    · intro h1
      have hfil : (config.filter fun kv => enabledTrue kv.1 kv.2) ≠ [] := by
        intro habs
        rw [habs] at h1
        simp at h1
      have hne : collectActive config config ≠ [] := by
        rw [collectActive_eq]
        simp [hfil]
      simp only [parse_config]
      rw [if_neg hne, collectActive_eq]
      simp

/-- Claim C6 witness: the empty config yields the sentinel, a one-service
config yields exactly one line. -/
theorem parse_config_line_count_witness :
    parse_config (.parsed []) = ["No active services found"]
    ∧ (parse_config (.parsed [("ftp.enabled", JsonVal.bool true)])).length
        = (([("ftp.enabled", JsonVal.bool true)] : List (String × JsonVal)).filter
            fun kv => enabledTrue kv.1 kv.2).length :=
  ⟨(parse_config_line_count.2 []).1 (by decide),
   (parse_config_line_count.2 [("ftp.enabled", JsonVal.bool true)]).2 (by decide)⟩

/-- Claim C7: only the first eight service entries produce service draw
calls, each on its own line, and the number of service lines handed to the
drawing step never exceeds eight. -/
theorem display_services_capped (h : Font → String → Nat) (width : Nat)
    (status : String) (services : List String) :
    ((display_on_epaper h width status services).drop 3).map DrawCall.text
        = services.take 8
    ∧ ((display_on_epaper h width status services).drop 3).length ≤ 8 := by
  constructor
  · simp only [display_on_epaper, List.drop]
    exact drawServices_map_text h (services.take 8) _
  · simp only [display_on_epaper, List.drop]
    rw [drawServices_length]
    simp [List.length_take]

/-- Claim C8: the snapshot is mutated only after a successful render —
whenever the render call raises, the loop state after the tick equals the
state before it. -/
theorem loop_state_unchanged_on_render_failure (st : LoopState) (s : String)
    (v : List String) :
    (loopTick st s v false).state = st
    ∧ ∀ ok : Bool, (loopTick st s v ok).raised = true → (loopTick st s v ok).state = st := by
  constructor
  · by_cases hc : some s ≠ st.last_status ∨ some v ≠ st.last_services
    · simp [loopTick, hc]
    · simp [loopTick, hc]
  · intro ok hr
    cases ok with
    | false =>
      by_cases hc : some s ≠ st.last_status ∨ some v ≠ st.last_services
      · simp [loopTick, hc]
      · simp [loopTick, hc]
    | true =>
      by_cases hc : some s ≠ st.last_status ∨ some v ≠ st.last_services
      · simp [loopTick, hc] at hr
      · simp [loopTick, hc] at hr

/-- Claim C8 witness: a failing render on the first tick leaves the
initial state in place. -/
theorem loop_state_unchanged_on_render_failure_witness :
    (loopTick ⟨none, none⟩ "Active" [] false).state = ⟨none, none⟩ :=
  (loop_state_unchanged_on_render_failure ⟨none, none⟩ "Active" []).2 false (by decide)

/-- Claim C9: every exceptional exit of main performs the module-level
shutdown exactly once, and a keyboard interruption or any other fatal
exception exits immediately with one cleanup regardless of any further
scheduled ticks — no retry of the main cycle. -/
theorem main_cleanup_exactly_once :
    (∀ (evs : List TickEvent) (st : LoopState) (n : Nat),
        main evs st = MainOutcome.exited n → n = 1)
    ∧ (∀ (rest : List TickEvent) (st : LoopState) (msg : String),
        main (TickEvent.keyboardInterrupt :: rest) st = MainOutcome.exited 1
        ∧ main (TickEvent.fatal msg :: rest) st = MainOutcome.exited 1) := by
  constructor
  · intro evs
    induction evs with
    | nil =>
      intro st n hmain
      simp [main] at hmain
    | cons e rest ih =>
      intro st n hmain
      cases e with
      | keyboardInterrupt =>
        simp [main] at hmain
        omega
      | fatal m =>
        simp [main] at hmain
        omega
      | result s v ok =>
        by_cases hr : (loopTick st s v ok).raised = true
        · simp [main, hr] at hmain
          omega
        · simp [main, hr] at hmain
          exact ih _ _ hmain
  · intro rest st msg
    exact ⟨rfl, rfl⟩

/-- Claim C9 witness: an immediate interruption exits with one cleanup. -/
theorem main_cleanup_exactly_once_witness :
    (1 : Nat) = 1 ∧ main [TickEvent.keyboardInterrupt] ⟨none, none⟩ = MainOutcome.exited 1 :=
  ⟨main_cleanup_exactly_once.1 [TickEvent.keyboardInterrupt] ⟨none, none⟩ 1 rfl,
   (main_cleanup_exactly_once.2 [] ⟨none, none⟩ "").1⟩

/-- Claim C10: no non-emptiness is imposed on the service-name portion of
a key — a key ".enabled" mapped to the boolean true yields the line
" on Port <port>", with port the value of the key ".port" when present and
"N/A" otherwise. -/
theorem parse_config_empty_service_name (config : List (String × JsonVal))
    (hmem : (".enabled", JsonVal.bool true) ∈ config) :
    (" on Port " ++ (match List.lookup ".port" config with
                     | some v => pyStr v
                     | none => "N/A")) ∈ parse_config (.parsed config) := by
  have hname : pyUpper (beforeFirstDot ".enabled") = "" := by decide
  have hport : pyLower "" ++ ".port" = ".port" := by decide
  have hepp : ("" : String) ++ " on Port " = " on Port " := by decide
  have hline : serviceLine config ".enabled"
      = " on Port " ++ (match List.lookup ".port" config with
                        | some v => pyStr v
                        | none => "N/A") := by
    simp only [serviceLine, hname, hport, hepp]
  have hp : enabledTrue ".enabled" (JsonVal.bool true) = true := by decide
  have hfil : (".enabled", JsonVal.bool true)
      ∈ config.filter (fun kv => enabledTrue kv.1 kv.2) :=
    List.mem_filter.mpr ⟨hmem, hp⟩
  have hmap : serviceLine config ".enabled"
      ∈ (config.filter fun kv => enabledTrue kv.1 kv.2).map
          (fun kv => serviceLine config kv.1) :=
    List.mem_map_of_mem (fun kv => serviceLine config kv.1) hfil
  rw [← collectActive_eq] at hmap
  have hne : collectActive config config ≠ [] := List.ne_nil_of_mem hmap
  rw [← hline]
  simp only [parse_config, if_neg hne]
  exact hmap

/-- Claim C10 witness: the singleton config with key ".enabled" set to
true and no ".port" key emits " on Port N/A". -/
theorem parse_config_empty_service_name_witness :
    (" on Port " ++ (match List.lookup ".port"
          ([(".enabled", JsonVal.bool true)] : List (String × JsonVal)) with
        | some v => pyStr v
        | none => "N/A"))
      ∈ parse_config (.parsed [(".enabled", JsonVal.bool true)]) :=
  parse_config_empty_service_name [(".enabled", JsonVal.bool true)] (by decide)

end Epaper
